import Mathlib

/-!
Verification of the Spending-Tracker analytics aggregation engine
(`app/services/analytics.py`, API layer `app/api/analytics.py`).

Modelling conventions:
* money amounts (`Numeric(10,2)` in the database, converted with `float(...)`
  at the service boundary) are embedded as exact rationals `ℚ`;
* dates are embedded as `Int` day numbers counted from 1970-01-01 (day 0),
  matching the `date(1970, 1, 1)` epoch default of the service;
* `date.today()` is impure, so the services take an explicit `today` argument
  used only when `end_date` is absent;
* an SQL `SUM` over an empty set is `NULL`; this is embedded as `Option ℚ`
  (`none` = `NULL`).  An SQL division by a zero (non-`NULL`) denominator
  aborts the query, which is embedded by `get_by_category` returning `none`;
* Python's `round(x, 1)` (round half to even at one decimal place) is
  embedded as `round1` on `ℚ`;
* the `Category` ORM model in `app/models/category.py` has no `type`
  column, while the service selects `Category.type` and the category schema
  (`app/schemas/category_schema.py`) declares `type: str` ("income" or
  "expense"); the embedded `Category` record therefore carries a `type`
  string field.
-/

namespace SpendingTracker

set_option maxRecDepth 4000

/-- Transaction type enum (`app/models/transaction.py`): income or expense. -/
inductive TransactionType
  | INCOME
  | EXPENSE
  deriving DecidableEq, Repr

/-- A row of the `transactions` table (`app/models/transaction.py`).
`amount` is the `Numeric(10, 2)` money column, `date` the transaction date
as a day number, `group_id` the optional owning group. -/
structure Txn where
  id : Nat
  name : String
  type : TransactionType
  category_id : Nat
  amount : ℚ
  date : Int
  user_id : Nat
  group_id : Option Nat
  deriving DecidableEq, Repr

/-- A row of the `categories` table (`app/models/category.py`), together with
the `type` string used by the analytics service and the category schema. -/
structure Category where
  id : Nat
  name : String
  type : String
  user_id : Nat
  deriving DecidableEq, Repr

/-- A row of the `users` table (`app/models/user.py`), restricted to the
fields the analytics service reads. -/
structure User where
  id : Nat
  first_name : String
  last_name : String
  deriving DecidableEq, Repr

/-- A row of the `groups` table (`app/models/group.py`); `members` is the
list of user ids in the `user_group_association` many-to-many table.  The
owner is related through the separate `owner_id` column and is not
automatically part of `members`. -/
structure Group where
  id : Nat
  name : String
  owner_id : Nat
  members : List Nat
  deriving DecidableEq, Repr

/-- The database state read by the analytics service. -/
structure DB where
  transactions : List Txn
  categories : List Category
  users : List User
  groups : List Group
  deriving DecidableEq, Repr

/-- Result shape of `AnalyticsService.get_overview`
(`app/schemas/analytic_schema.py`, `AnalyticsOverview`). -/
structure AnalyticsOverview where
  balance : ℚ
  total_income : ℚ
  total_expense : ℚ
  period_start : Int
  period_end : Int
  deriving DecidableEq, Repr

/-- Result row of `AnalyticsService.get_by_category`
(`app/schemas/analytic_schema.py`, `CategorySummary`). -/
structure CategorySummary where
  category_name : String
  category_type : String
  total_amount : ℚ
  percentage : ℚ
  deriving DecidableEq, Repr

/-- Result row of `AnalyticsService.get_by_date`
(`app/schemas/analytic_schema.py`, `DailySummary`). -/
structure DailySummary where
  date : Int
  income : ℚ
  expense : ℚ
  balance : ℚ
  deriving DecidableEq, Repr

/-- Result row of the group category breakdown
(`app/schemas/group.py`, `CategoryBreakdown`). -/
structure CategoryBreakdown where
  category : String
  amount : ℚ
  percentage : ℚ
  deriving DecidableEq, Repr

/-- Result row of the member contribution breakdown
(`app/schemas/group.py`, `MemberContribution`). -/
structure MemberContribution where
  user_id : Nat
  first_name : String
  last_name : String
  total_contributed : ℚ
  percentage : ℚ
  deriving DecidableEq, Repr

/-- Result shape of `AnalyticsService.get_group_analytics`
(`app/schemas/group.py`, `GroupAnalytics`). -/
structure GroupAnalytics where
  total_expenses : ℚ
  total_income : ℚ
  balance : ℚ
  member_count : Nat
  period_start : Option Int
  period_end : Option Int
  category_breakdown : List CategoryBreakdown
  member_contributions : List MemberContribution
  deriving DecidableEq, Repr

/-- Primary-key lookup of a category (`join(Category)` on
`Transaction.category_id` / the `t.category` relationship). -/
def lookupCategory (db : DB) (cid : Nat) : Option Category :=
  db.categories.find? (fun c => c.id == cid)

/-- Primary-key lookup of a user (the `t.user` relationship). -/
def lookupUser (db : DB) (uid : Nat) : Option User :=
  db.users.find? (fun u => u.id == uid)

/-- Lookup of a group by id (`select(Group).where(Group.id == group_id)`,
`scalar_one_or_none`). -/
def lookupGroup (db : DB) (gid : Nat) : Option Group :=
  db.groups.find? (fun g => g.id == gid)

/-- Default for an absent `start_date`: `date(1970, 1, 1)`, day 0. -/
def resolveStart : Option Int → Int
  | none => 0
  | some s => s

/-- Default for an absent `end_date`: `date.today()`. -/
def resolveEnd (today : Int) : Option Int → Int
  | none => today
  | some e => e

/-- The personal-scope `WHERE` filter shared by the three personal queries:
`Transaction.user_id == user.id`, `Transaction.date >= start_date`,
`Transaction.date <= end_date`. -/
def userTxns (db : DB) (uid : Nat) (s e : Int) : List Txn :=
  db.transactions.filter
    (fun t => t.user_id == uid && decide (s ≤ t.date) && decide (t.date ≤ e))

/-- Sum of the amounts of the transactions of one type, the value of the
`coalesce(sum(case((type == ty, amount)), else_=0), 0)` aggregate. -/
def typeSum (l : List Txn) (ty : TransactionType) : ℚ :=
  ((l.filter (fun t => t.type == ty)).map (fun t => t.amount)).sum

/-- SQL `SUM` aggregate: `NULL` (`none`) over the empty set, otherwise the
sum of the summands. -/
def sqlSum (l : List ℚ) : Option ℚ :=
  match l with
  | [] => none
  | _ => some l.sum

/-- `AnalyticsService.get_overview`: total income, total expense and balance
of one user's transactions in the period. -/
def get_overview (db : DB) (uid : Nat) (today : Int)
    (start_date end_date : Option Int) : AnalyticsOverview :=
  let s := resolveStart start_date
  let e := resolveEnd today end_date
  let txns := userTxns db uid s e
  let income := typeSum txns TransactionType.INCOME
  let expense := typeSum txns TransactionType.EXPENSE
  { balance := income - expense
    total_income := income
    total_expense := expense
    period_start := s
    period_end := e }

/-- One step of association-list accumulation: add `a` to the entry of key
`k`, appending a fresh entry when the key is new.  This is the behaviour of
both the SQL `GROUP BY` aggregation and the Python dict accumulation
(`cat_totals`, `user_totals`), whose output order is first-appearance
order of the key. -/
def addTo {κ : Type} [DecidableEq κ] (acc : List (κ × ℚ)) (k : κ) (a : ℚ) :
    List (κ × ℚ) :=
  match acc with
  | [] => [(k, a)]
  | (k₀, s) :: rest =>
      if k₀ = k then (k₀, s + a) :: rest else (k₀, s) :: addTo rest k a

/-- Association-list grouping of keyed amounts: totals per key, keys in
first-appearance order. -/
def groupTotals {κ : Type} [DecidableEq κ] (rows : List (κ × ℚ)) :
    List (κ × ℚ) :=
  rows.foldl (fun acc r => addTo acc r.1 r.2) []

/-- Inner join of a transaction list with the category table, keeping the
joined category record and the transaction amount. -/
def joinCategory (db : DB) (txns : List Txn) : List (Category × ℚ) :=
  txns.filterMap
    (fun t => (lookupCategory db t.category_id).map (fun c => (c, t.amount)))

/-- The `order_by(func.sum(Transaction.amount).desc())` comparison on grouped
rows: row `a` may precede row `b` when `b`'s total is at most `a`'s.  Ties
are left in grouping order (the query orders by the total only). -/
def byTotalDesc {κ : Type} : (κ × ℚ) → (κ × ℚ) → Prop :=
  fun a b => b.2 ≤ a.2

instance {κ : Type} : DecidableRel (@byTotalDesc κ) :=
  fun a b => inferInstanceAs (Decidable (b.2 ≤ a.2))

instance {κ : Type} : IsTotal (κ × ℚ) byTotalDesc :=
  ⟨fun a b => by simp only [byTotalDesc]; exact le_total b.2 a.2⟩

instance {κ : Type} : IsTrans (κ × ℚ) byTotalDesc :=
  ⟨fun a b c h₁ h₂ => by
    simp only [byTotalDesc] at h₁ h₂ ⊢
    exact le_trans h₂ h₁⟩

/-- The grouped, sorted rows of the `get_by_category` query: the user's
transactions in the period, inner-joined with `Category`, grouped by
`(Category.id, Category.name, Category.type)` (the category record) and
ordered by descending total amount. -/
def byCategoryGroups (db : DB) (uid : Nat) (s e : Int) :
    List (Category × ℚ) :=
  List.insertionSort byTotalDesc (groupTotals (joinCategory db (userTxns db uid s e)))

/-- `AnalyticsService.get_by_category`: per-category totals with percentage
of the user's total expense in the period.  The `total_expense_subq`
subquery sums the user's EXPENSE transactions only (SQL `SUM`: `NULL` on
the empty set).  Division by a `NULL` denominator is `NULL`, mapped to `0`
by `float(row.percentage or 0)`; division by a zero non-`NULL` denominator
aborts the SQL query, embedded as result `none`. -/
def get_by_category (db : DB) (uid : Nat) (today : Int)
    (start_date end_date : Option Int) : Option (List CategorySummary) :=
  let s := resolveStart start_date
  let e := resolveEnd today end_date
  let txns := userTxns db uid s e
  let expSum := sqlSum
    ((txns.filter (fun t => t.type == TransactionType.EXPENSE)).map (fun t => t.amount))
  let grouped := byCategoryGroups db uid s e
  match expSum with
  | none =>
      some (grouped.map (fun g =>
        { category_name := g.1.name
          category_type := g.1.type
          total_amount := g.2
          percentage := 0 }))
  | some d =>
      if d = 0 ∧ grouped ≠ [] then none
      else
        some (grouped.map (fun g =>
          { category_name := g.1.name
            category_type := g.1.type
            total_amount := g.2
            percentage := g.2 / d * 100 }))

/-- Day truncation (`func.date(Transaction.date)`): the identity on day
numbers. -/
def truncDay (d : Int) : Int := d

/-- Week truncation (`func.date_trunc("week", ...)`): the Monday on or
before the given day.  Day 0 (1970-01-01) is a Thursday, so the weekday
index with Monday = 0 of day `d` is `(d + 3) mod 7`. -/
def truncWeek (d : Int) : Int := d - Int.emod (d + 3) 7

/-- Conversion of a day number to a proleptic-Gregorian civil date
`(year, month, day)`, the standard era-based algorithm. -/
def civilFromDays (z₀ : Int) : Int × Int × Int :=
  let z := z₀ + 719468
  let era := Int.fdiv z 146097
  let doe := z - era * 146097
  let yoe := Int.fdiv (doe - Int.fdiv doe 1460 + Int.fdiv doe 36524 - Int.fdiv doe 146096) 365
  let y := yoe + era * 400
  let doy := doe - (365 * yoe + Int.fdiv yoe 4 - Int.fdiv yoe 100)
  let mp := Int.fdiv (5 * doy + 2) 153
  let d := doy - Int.fdiv (153 * mp + 2) 5 + 1
  let m := if mp < 10 then mp + 3 else mp - 9
  (if m ≤ 2 then y + 1 else y, m, d)

/-- Conversion of a proleptic-Gregorian civil date to a day number, the
inverse of `civilFromDays`. -/
def daysFromCivil (y₀ m d : Int) : Int :=
  let y := if m ≤ 2 then y₀ - 1 else y₀
  let era := Int.fdiv y 400
  let yoe := y - era * 400
  let mp := if 2 < m then m - 3 else m + 9
  let doy := Int.fdiv (153 * mp + 2) 5 + d - 1
  let doe := yoe * 365 + Int.fdiv yoe 4 - Int.fdiv yoe 100 + doy
  era * 146097 + doe - 719468

/-- Month truncation (`func.date_trunc("month", ...)`): the first day of the
given day's calendar month. -/
def truncMonth (z : Int) : Int :=
  let ymd := civilFromDays z
  daysFromCivil ymd.1 ymd.2.1 1

/-- The `date_part` selection of `get_by_date`: `"week"` and `"month"` pick
their truncations, every other string falls through to the `else` branch,
day truncation. -/
def datePart (group_by : String) : Int → Int :=
  if group_by = "week" then truncWeek
  else if group_by = "month" then truncMonth
  else truncDay

/-- One step of per-key list accumulation: append transaction `t` to the
entry of key `k`, adding a fresh entry when the key is new. -/
def addToGroup {κ : Type} [DecidableEq κ] (acc : List (κ × List Txn))
    (k : κ) (t : Txn) : List (κ × List Txn) :=
  match acc with
  | [] => [(k, [t])]
  | (k₀, ts) :: rest =>
      if k₀ = k then (k₀, ts ++ [t]) :: rest else (k₀, ts) :: addToGroup rest k t

/-- Grouping of transactions into per-key lists, keys in first-appearance
order, each key's transactions in ledger order. -/
def groupByKey {κ : Type} [DecidableEq κ] (key : Txn → κ) (l : List Txn) :
    List (κ × List Txn) :=
  l.foldl (fun acc t => addToGroup acc (key t) t) []

/-- The `order_by(date_part)` ascending comparison on daily summary rows. -/
def byDateAsc : DailySummary → DailySummary → Prop :=
  fun a b => a.date ≤ b.date

instance : DecidableRel byDateAsc :=
  fun a b => inferInstanceAs (Decidable (a.date ≤ b.date))

instance : IsTotal DailySummary byDateAsc :=
  ⟨fun a b => le_total a.date b.date⟩

instance : IsTrans DailySummary byDateAsc :=
  ⟨fun _ _ _ h₁ h₂ => le_trans h₁ h₂⟩

/-- `AnalyticsService.get_by_date`: per-bucket income, expense and balance
of one user's transactions in the period, buckets given by the granularity
string and ordered chronologically. -/
def get_by_date (db : DB) (uid : Nat) (today : Int)
    (start_date end_date : Option Int) (group_by : String) : List DailySummary :=
  let s := resolveStart start_date
  let e := resolveEnd today end_date
  let txns := userTxns db uid s e
  let dp := datePart group_by
  let buckets := groupByKey (fun t => dp t.date) txns
  List.insertionSort byDateAsc
    (buckets.map (fun b =>
      let income := typeSum b.2 TransactionType.INCOME
      let expense := typeSum b.2 TransactionType.EXPENSE
      { date := b.1
        income := income
        expense := expense
        balance := income - expense }))

/-- Python `round` at `ndigits = 0`: round half to even to an integer. -/
def roundHalfEven (q : ℚ) : ℤ :=
  let n := ⌊q⌋
  let f := q - n
  if f < 1 / 2 then n
  else if 1 / 2 < f then n + 1
  else if n % 2 = 0 then n else n + 1

/-- Python `round(x, 1)`: round half to even at one decimal place. -/
def round1 (q : ℚ) : ℚ := (roundHalfEven (q * 10) : ℚ) / 10

/-- Python `x or 1.0` for a numeric `x`: `1.0` when `x` is zero (falsy),
otherwise `x` itself.  Used for the two fallback denominators of
`get_group_analytics` (`total_expenses or 1.0`, `sum(...) or 1.0`). -/
def orOne (q : ℚ) : ℚ := if q = 0 then 1 else q

/-- The group-scope filter of `get_group_analytics`: transactions of the
group, inner-joined with their user and category rows
(`join(Transaction.user).join(Transaction.category)`), with the optional
date-range and exact category-name restrictions. -/
def groupTxns (db : DB) (gid : Nat) (start_date end_date : Option Int)
    (category : Option String) : List Txn :=
  db.transactions.filter
    (fun t =>
      t.group_id == some gid
      && (lookupUser db t.user_id).isSome
      && (match lookupCategory db t.category_id with
          | some c =>
              match category with
              | some cname => c.name == cname
              | none => true
          | none => false)
      && (match start_date with
          | some s => decide (s ≤ t.date)
          | none => true)
      && (match end_date with
          | some e => decide (t.date ≤ e)
          | none => true))

/-- The sentinel-labelled category name of a transaction
(`t.category.name if t.category else "Uncategorized"`). -/
def catName (db : DB) (t : Txn) : String :=
  match lookupCategory db t.category_id with
  | some c => c.name
  | none => "Uncategorized"

/-- The grouping key of `user_totals`: the transacting user's id with the
display names resolved from the joined user row (`t.user.id`,
`t.user.first_name`, `t.user.last_name`). -/
def userKey (db : DB) (t : Txn) : Option (Nat × String × String) :=
  (lookupUser db t.user_id).map (fun u => (u.id, u.first_name, u.last_name))

/-- The `cat_totals` dict of `get_group_analytics`: amounts summed per
category name, insertion order. -/
def catTotals (db : DB) (txns : List Txn) : List (String × ℚ) :=
  groupTotals (txns.map (fun t => (catName db t, t.amount)))

/-- The `user_totals` dict of `get_group_analytics`: amounts summed per
transacting user, insertion order.  The base query inner-joins the user
row, so the lookup always succeeds on filtered transactions. -/
def userTotals (db : DB) (txns : List Txn) : List ((Nat × String × String) × ℚ) :=
  groupTotals (txns.filterMap (fun t => (userKey db t).map (fun k => (k, t.amount))))

/-- `AnalyticsService.get_group_analytics`: group totals, category breakdown
and per-member contribution breakdown, with the empty-set branch returning
zeroed totals and the group's member count. -/
def get_group_analytics (db : DB) (gid : Nat)
    (start_date end_date : Option Int) (category : Option String) :
    GroupAnalytics :=
  let transactions := groupTxns db gid start_date end_date category
  if transactions = [] then
    let member_count :=
      match lookupGroup db gid with
      | some g => g.members.length
      | none => 0
    { total_expenses := 0
      total_income := 0
      balance := 0
      member_count := member_count
      period_start := start_date
      period_end := end_date
      category_breakdown := []
      member_contributions := [] }
  else
    let total_income := typeSum transactions TransactionType.INCOME
    let total_expenses := typeSum transactions TransactionType.EXPENSE
    let balance := total_income - total_expenses
    let total_for_pct := orOne total_expenses
    let category_breakdown :=
      (catTotals db transactions).map (fun g =>
        { category := g.1
          amount := g.2
          percentage := round1 (g.2 / total_for_pct * 100) })
    let user_totals := userTotals db transactions
    let contribSum := (user_totals.map (fun v => v.2)).sum
    let total_contrib := orOne contribSum
    let member_contributions :=
      user_totals.map (fun v =>
        { user_id := v.1.1
          first_name := v.1.2.1
          last_name := v.1.2.2
          total_contributed := v.2
          percentage := round1 (v.2 / total_contrib * 100) })
    let member_count :=
      match lookupGroup db gid with
      | some g => g.members.length
      | none => member_contributions.length
    { total_expenses := total_expenses
      total_income := total_income
      balance := balance
      member_count := member_count
      period_start := start_date
      period_end := end_date
      category_breakdown := category_breakdown
      member_contributions := member_contributions }

/-- The `group_by` query-parameter validation of the `/analytics/by-date`
endpoint (`app/api/analytics.py`): the anchored regular expression
`(day|week|month)` accepts exactly the three enumerated values; any other
value is rejected as a bad request before the service runs. -/
def granularityAccepted (g : String) : Bool :=
  g == "day" || g == "week" || g == "month"

/-- The member count asserted by the spec for a group: the association
members plus the owner (counted once when the owner is also an explicit
member).  Stated from the spec's words for comparison with the code's
`len(group.members)`. -/
def specMemberCountWithOwner (g : Group) : Nat :=
  if g.owner_id ∈ g.members then g.members.length else g.members.length + 1

/-! ### Concrete databases used by the claim theorems -/

/-- The empty database. -/
def db0 : DB := { transactions := [], categories := [], users := [], groups := [] }

/-- The fixed scenario of the spec: one user, expenses 100 (Food,
2024-01-05 = day 19727) and 50 (Transport, 2024-01-10 = day 19732), income
500 (Salary, 2024-01-01 = day 19723). -/
def db7 : DB :=
  { transactions :=
      [ ⟨1, "food", TransactionType.EXPENSE, 1, 100, 19727, 1, none⟩
      , ⟨2, "transport", TransactionType.EXPENSE, 2, 50, 19732, 1, none⟩
      , ⟨3, "salary", TransactionType.INCOME, 3, 500, 19723, 1, none⟩ ]
    categories :=
      [ ⟨1, "Food", "expense", 1⟩
      , ⟨2, "Transport", "expense", 1⟩
      , ⟨3, "Salary", "income", 1⟩ ]
    users := [⟨1, "Alice", "Smith"⟩]
    groups := [] }

/-- One user, two group expenses 100 (Food) and 50 (Transport): the same
shares seen by the personal by-category breakdown and by the group
category breakdown. -/
def db10 : DB :=
  { transactions :=
      [ ⟨1, "food", TransactionType.EXPENSE, 1, 100, 5, 1, some 1⟩
      , ⟨2, "transport", TransactionType.EXPENSE, 2, 50, 6, 1, some 1⟩ ]
    categories := [⟨1, "Food", "expense", 1⟩, ⟨2, "Transport", "expense", 1⟩]
    users := [⟨1, "Alice", "Smith"⟩]
    groups := [⟨1, "fam", 1, [1]⟩] }

/-- A group with two transacting members whose totals are 1 and 2, so the
contribution quotients 1/3 and 2/3 are not representable at one decimal. -/
def db6 : DB :=
  { transactions :=
      [ ⟨1, "a", TransactionType.EXPENSE, 1, 1, 5, 1, some 1⟩
      , ⟨2, "b", TransactionType.EXPENSE, 1, 2, 6, 2, some 1⟩ ]
    categories := [⟨1, "Stuff", "expense", 1⟩]
    users := [⟨1, "Ann", "A"⟩, ⟨2, "Bob", "B"⟩]
    groups := [⟨1, "fam", 1, [1, 2]⟩] }

/-- The spec scenario of a group whose two members contribute 800 and 200. -/
def db6b : DB :=
  { transactions :=
      [ ⟨1, "a", TransactionType.EXPENSE, 1, 800, 5, 1, some 1⟩
      , ⟨2, "b", TransactionType.EXPENSE, 1, 200, 6, 2, some 1⟩ ]
    categories := [⟨1, "Stuff", "expense", 1⟩]
    users := [⟨1, "Ann", "A"⟩, ⟨2, "Bob", "B"⟩]
    groups := [⟨1, "fam", 1, [1, 2]⟩] }

/-- A group whose only transaction in scope is an income of 5, so the group
expense total is zero while the breakdown is non-empty. -/
def db5 : DB :=
  { transactions := [⟨1, "gift", TransactionType.INCOME, 1, 5, 10, 1, some 1⟩]
    categories := [⟨1, "Gift", "income", 1⟩]
    users := [⟨1, "Ann", "A"⟩]
    groups := [⟨1, "fam", 1, [1]⟩] }

/-- A database exercising every zero-denominator fallback at once: user 1
has a single personal income of 5 (no expenses), and group 2 has a single
income transaction of amount 0, so the group expense total and the total
member contribution are both zero on a non-empty set. -/
def db5w : DB :=
  { transactions :=
      [ ⟨1, "gift", TransactionType.INCOME, 1, 5, 10, 1, none⟩
      , ⟨2, "zero", TransactionType.INCOME, 1, 0, 10, 2, some 2⟩ ]
    categories := [⟨1, "Gift", "income", 1⟩]
    users := [⟨1, "Ann", "A"⟩, ⟨2, "Bob", "B"⟩]
    groups := [⟨2, "zed", 2, [2]⟩] }

/-- Two expense categories with equal totals 50, the category named "B"
transacted before the category named "A". -/
def db8 : DB :=
  { transactions :=
      [ ⟨1, "b", TransactionType.EXPENSE, 1, 50, 5, 1, none⟩
      , ⟨2, "a", TransactionType.EXPENSE, 2, 50, 6, 1, none⟩ ]
    categories := [⟨1, "B", "expense", 1⟩, ⟨2, "A", "expense", 1⟩]
    users := [⟨1, "Ann", "A"⟩]
    groups := [] }

/-- A group owned by user 10 with association members 1 and 2 and no
transactions at all. -/
def db3 : DB :=
  { transactions := []
    categories := []
    users := [⟨1, "Ann", "A"⟩, ⟨2, "Bob", "B"⟩, ⟨10, "Own", "O"⟩]
    groups := [⟨1, "fam", 10, [1, 2]⟩] }

/-! ### Association-list grouping lemmas -/

theorem income_beq_income :
    (TransactionType.INCOME == TransactionType.INCOME) = true := rfl

theorem income_beq_expense :
    (TransactionType.INCOME == TransactionType.EXPENSE) = false := rfl

theorem expense_beq_income :
    (TransactionType.EXPENSE == TransactionType.INCOME) = false := rfl

theorem expense_beq_expense :
    (TransactionType.EXPENSE == TransactionType.EXPENSE) = true := rfl

/-- The keys of an association list (also usable on raw keyed rows). -/
def keysOf {κ : Type} (l : List (κ × ℚ)) : List κ := l.map (fun p => p.1)

/-- The total of the values carried by key `j` in a keyed row list. -/
def assocSum {κ : Type} [DecidableEq κ] (l : List (κ × ℚ)) (j : κ) : ℚ :=
  ((l.filter (fun p => decide (p.1 = j))).map (fun p => p.2)).sum

/-- The total of all values of a keyed row list. -/
def valsSum {κ : Type} (l : List (κ × ℚ)) : ℚ :=
  (l.map (fun p => p.2)).sum

theorem assocSum_nil {κ : Type} [DecidableEq κ] (j : κ) :
    assocSum ([] : List (κ × ℚ)) j = 0 := rfl

theorem assocSum_cons {κ : Type} [DecidableEq κ] (q : κ × ℚ)
    (l : List (κ × ℚ)) (j : κ) :
    assocSum (q :: l) j = (if q.1 = j then q.2 else 0) + assocSum l j := by
  by_cases h : q.1 = j <;> simp [assocSum, List.filter_cons, h]

theorem valsSum_nil {κ : Type} : valsSum ([] : List (κ × ℚ)) = 0 := rfl

theorem valsSum_cons {κ : Type} (q : κ × ℚ) (l : List (κ × ℚ)) :
    valsSum (q :: l) = q.2 + valsSum l := by
  simp [valsSum]

theorem valsSum_addTo {κ : Type} [DecidableEq κ] (acc : List (κ × ℚ))
    (k : κ) (a : ℚ) : valsSum (addTo acc k a) = valsSum acc + a := by
  induction acc with
  | nil => simp [addTo, valsSum]
  | cons q rest ih =>
      obtain ⟨k₀, s⟩ := q
      by_cases h : k₀ = k
      · simp [addTo, h, valsSum_cons]
        ring
      · simp [addTo, h, valsSum_cons, ih]
        ring

theorem addTo_cons {κ : Type} [DecidableEq κ] (k₀ : κ) (s : ℚ)
    (rest : List (κ × ℚ)) (k : κ) (a : ℚ) :
    addTo ((k₀, s) :: rest) k a =
      if k₀ = k then (k₀, s + a) :: rest else (k₀, s) :: addTo rest k a := rfl

theorem assocSum_addTo {κ : Type} [DecidableEq κ] (acc : List (κ × ℚ))
    (k : κ) (a : ℚ) (j : κ) :
    assocSum (addTo acc k a) j = assocSum acc j + (if k = j then a else 0) := by
  induction acc with
  | nil =>
      rw [show addTo ([] : List (κ × ℚ)) k a = [(k, a)] from rfl]
      by_cases h : k = j
      · simp [assocSum_cons, assocSum_nil, h]
      · simp [assocSum_cons, assocSum_nil, h]
  | cons q rest ih =>
      obtain ⟨k₀, s⟩ := q
      rw [addTo_cons]
      by_cases h : k₀ = k
      · subst h
        rw [if_pos rfl]
        by_cases hj : k₀ = j
        · subst hj
          simp [assocSum_cons]
          ring
        · simp [assocSum_cons, hj]
      · rw [if_neg h, assocSum_cons, assocSum_cons, ih]
        ring

theorem keysOf_nil {κ : Type} : keysOf ([] : List (κ × ℚ)) = [] := rfl

theorem keysOf_cons {κ : Type} (q : κ × ℚ) (l : List (κ × ℚ)) :
    keysOf (q :: l) = q.1 :: keysOf l := rfl

theorem keys_addTo {κ : Type} [DecidableEq κ] (acc : List (κ × ℚ))
    (k : κ) (a : ℚ) :
    keysOf (addTo acc k a) =
      if k ∈ keysOf acc then keysOf acc else keysOf acc ++ [k] := by
  induction acc with
  | nil =>
      rw [show addTo ([] : List (κ × ℚ)) k a = [(k, a)] from rfl]
      simp [keysOf_cons, keysOf_nil]
  | cons q rest ih =>
      obtain ⟨k₀, s⟩ := q
      rw [addTo_cons]
      by_cases hk : k₀ = k
      · subst hk
        rw [if_pos rfl]
        simp only [keysOf_cons]
        rw [if_pos (List.mem_cons_self k₀ (keysOf rest))]
      · have hcond : (k ∈ k₀ :: keysOf rest) ↔ (k ∈ keysOf rest) := by
          constructor
          · intro hc
            rcases List.mem_cons.1 hc with hc | hc
            · exact absurd hc.symm hk
            · exact hc
          · exact fun hc => List.mem_cons_of_mem _ hc
        rw [if_neg hk]
        simp only [keysOf_cons, ih]
        by_cases hr : k ∈ keysOf rest
        · rw [if_pos hr, if_pos (hcond.2 hr)]
        · rw [if_neg hr, if_neg (fun hc => hr (hcond.1 hc)), List.cons_append]

theorem mem_keys_addTo {κ : Type} [DecidableEq κ] (acc : List (κ × ℚ))
    (k : κ) (a : ℚ) (j : κ) :
    j ∈ keysOf (addTo acc k a) ↔ j ∈ keysOf acc ∨ j = k := by
  rw [keys_addTo]
  by_cases h : k ∈ keysOf acc
  · rw [if_pos h]
    constructor
    · exact Or.inl
    · intro hc
      rcases hc with hc | hc
      · exact hc
      · exact hc ▸ h
  · rw [if_neg h]
    simp [List.mem_append]

theorem nodup_keys_addTo {κ : Type} [DecidableEq κ] (acc : List (κ × ℚ))
    (k : κ) (a : ℚ) (h : (keysOf acc).Nodup) :
    (keysOf (addTo acc k a)).Nodup := by
  rw [keys_addTo]
  by_cases hm : k ∈ keysOf acc
  · rwa [if_pos hm]
  · rw [if_neg hm, ← List.concat_eq_append]
    exact List.Nodup.concat hm h

theorem assocSum_foldl {κ : Type} [DecidableEq κ] (rows acc : List (κ × ℚ))
    (j : κ) :
    assocSum (rows.foldl (fun acc r => addTo acc r.1 r.2) acc) j
      = assocSum acc j + assocSum rows j := by
  induction rows generalizing acc with
  | nil => simp [assocSum_nil]
  | cons r rest ih =>
      rw [List.foldl_cons, ih, assocSum_addTo, assocSum_cons]
      ring

theorem assocSum_groupTotals {κ : Type} [DecidableEq κ]
    (rows : List (κ × ℚ)) (j : κ) :
    assocSum (groupTotals rows) j = assocSum rows j := by
  rw [groupTotals, assocSum_foldl, assocSum_nil, zero_add]

theorem valsSum_foldl {κ : Type} [DecidableEq κ] (rows acc : List (κ × ℚ)) :
    valsSum (rows.foldl (fun acc r => addTo acc r.1 r.2) acc)
      = valsSum acc + valsSum rows := by
  induction rows generalizing acc with
  | nil => simp [valsSum_nil]
  | cons r rest ih =>
      rw [List.foldl_cons, ih, valsSum_addTo, valsSum_cons]
      ring

theorem valsSum_groupTotals {κ : Type} [DecidableEq κ]
    (rows : List (κ × ℚ)) : valsSum (groupTotals rows) = valsSum rows := by
  rw [groupTotals, valsSum_foldl, valsSum_nil, zero_add]

theorem mem_keys_foldl {κ : Type} [DecidableEq κ] (rows acc : List (κ × ℚ))
    (j : κ) :
    j ∈ keysOf (rows.foldl (fun acc r => addTo acc r.1 r.2) acc)
      ↔ j ∈ keysOf acc ∨ j ∈ keysOf rows := by
  induction rows generalizing acc with
  | nil => simp [keysOf_nil]
  | cons r rest ih =>
      rw [List.foldl_cons, ih, mem_keys_addTo, keysOf_cons, List.mem_cons]
      tauto

theorem mem_keys_groupTotals {κ : Type} [DecidableEq κ]
    (rows : List (κ × ℚ)) (j : κ) :
    j ∈ keysOf (groupTotals rows) ↔ j ∈ keysOf rows := by
  rw [groupTotals, mem_keys_foldl, keysOf_nil]
  simp

theorem nodup_keys_foldl {κ : Type} [DecidableEq κ] (rows acc : List (κ × ℚ))
    (h : (keysOf acc).Nodup) :
    (keysOf (rows.foldl (fun acc r => addTo acc r.1 r.2) acc)).Nodup := by
  induction rows generalizing acc with
  | nil => exact h
  | cons r rest ih => exact ih (addTo acc r.1 r.2) (nodup_keys_addTo acc r.1 r.2 h)

theorem nodup_keys_groupTotals {κ : Type} [DecidableEq κ]
    (rows : List (κ × ℚ)) : (keysOf (groupTotals rows)).Nodup :=
  nodup_keys_foldl rows [] List.nodup_nil

theorem mem_keysOf_of_mem {κ : Type} {l : List (κ × ℚ)} {p : κ × ℚ}
    (h : p ∈ l) : p.1 ∈ keysOf l :=
  List.mem_map_of_mem (fun q => q.1) h

theorem assocSum_of_not_mem_keys {κ : Type} [DecidableEq κ]
    {l : List (κ × ℚ)} {j : κ} (h : j ∉ keysOf l) : assocSum l j = 0 := by
  induction l with
  | nil => rfl
  | cons q rest ih =>
      rw [keysOf_cons, List.mem_cons] at h
      push_neg at h
      rw [assocSum_cons, if_neg (fun hc => h.1 hc.symm), ih h.2, zero_add]

theorem val_eq_assocSum_of_nodup {κ : Type} [DecidableEq κ]
    {l : List (κ × ℚ)} (hnd : (keysOf l).Nodup) {p : κ × ℚ} (hp : p ∈ l) :
    p.2 = assocSum l p.1 := by
  induction l with
  | nil => cases hp
  | cons q rest ih =>
      rw [keysOf_cons, List.nodup_cons] at hnd
      rcases List.mem_cons.1 hp with rfl | hp
      · rw [assocSum_cons, if_pos rfl, assocSum_of_not_mem_keys hnd.1, add_zero]
      · have hne : ¬ q.1 = p.1 := by
          intro hc
          exact hnd.1 (hc ▸ mem_keysOf_of_mem hp)
        rw [assocSum_cons, if_neg hne, zero_add]
        exact ih hnd.2 hp

theorem groupTotals_val {κ : Type} [DecidableEq κ] {rows : List (κ × ℚ)}
    {p : κ × ℚ} (hp : p ∈ groupTotals rows) : p.2 = assocSum rows p.1 := by
  rw [← assocSum_groupTotals]
  exact val_eq_assocSum_of_nodup (nodup_keys_groupTotals rows) hp

theorem valsSum_perm {κ : Type} {l₁ l₂ : List (κ × ℚ)} (h : l₁.Perm l₂) :
    valsSum l₁ = valsSum l₂ := by
  rw [valsSum, valsSum]
  exact (h.map (fun p => p.2)).sum_eq

theorem sum_map_div_mul {κ : Type} (l : List (κ × ℚ)) (d c : ℚ) :
    (l.map (fun g => g.2 / d * c)).sum = valsSum l / d * c := by
  induction l with
  | nil => simp [valsSum_nil]
  | cons q rest ih =>
      rw [List.map_cons, List.sum_cons, ih, valsSum_cons]
      ring

theorem keysOf_joinCategory (db : DB) (txns : List Txn) :
    keysOf (joinCategory db txns)
      = txns.filterMap (fun t => lookupCategory db t.category_id) := by
  induction txns with
  | nil => rfl
  | cons t rest ih =>
      cases hl : lookupCategory db t.category_id with
      | none =>
          simp only [joinCategory, List.filterMap_cons, hl] at ih ⊢
          exact ih
      | some c =>
          simp only [joinCategory, List.filterMap_cons, hl, Option.map_some'] at ih ⊢
          rw [keysOf_cons, ih]

theorem valsSum_joinCategory (db : DB) (txns : List Txn)
    (h : ∀ t ∈ txns, (lookupCategory db t.category_id).isSome = true) :
    valsSum (joinCategory db txns) = (txns.map (fun t => t.amount)).sum := by
  induction txns with
  | nil => rfl
  | cons t rest ih =>
      have ht := h t (List.mem_cons_self t rest)
      have hrest := fun x hx => h x (List.mem_cons_of_mem t hx)
      cases hl : lookupCategory db t.category_id with
      | none => rw [hl] at ht; simp at ht
      | some c =>
          simp only [joinCategory, List.filterMap_cons, hl, Option.map_some'] at ih ⊢
          rw [valsSum_cons, ih hrest, List.map_cons, List.sum_cons]

theorem userKey_spec {db : DB} {t : Txn} {k : Nat × String × String}
    (h : userKey db t = some k) :
    k.1 = t.user_id ∧ lookupUser db k.1 = some ⟨k.1, k.2.1, k.2.2⟩ := by
  rw [userKey] at h
  cases hl : lookupUser db t.user_id with
  | none => rw [hl] at h; cases h
  | some u =>
      rw [hl, Option.map_some'] at h
      obtain rfl : (u.id, u.first_name, u.last_name) = k := Option.some.inj h
      have hid : u.id = t.user_id := by
        rw [lookupUser] at hl
        simpa using List.find?_some hl
      refine ⟨hid, ?_⟩
      rw [lookupUser] at hl ⊢
      rw [← hid] at hl
      exact hl

theorem mem_keys_userRows {db : DB} {txns : List Txn}
    {k : Nat × String × String}
    (h : k ∈ keysOf (txns.filterMap
      (fun t => (userKey db t).map (fun j => (j, t.amount))))) :
    ∃ t ∈ txns, userKey db t = some k := by
  induction txns with
  | nil => cases h
  | cons t rest ih =>
      cases hu : userKey db t with
      | none =>
          simp only [List.filterMap_cons, hu, Option.map_none'] at h
          rcases ih h with ⟨x, hx, hk⟩
          exact ⟨x, List.mem_cons_of_mem t hx, hk⟩
      | some j =>
          simp only [List.filterMap_cons, hu, Option.map_some'] at h
          rw [keysOf_cons, List.mem_cons] at h
          rcases h with rfl | h
          · exact ⟨t, List.mem_cons_self t rest, hu⟩
          · rcases ih h with ⟨x, hx, hk⟩
            exact ⟨x, List.mem_cons_of_mem t hx, hk⟩

theorem assocSum_userRows {db : DB} {txns : List Txn}
    {k : Nat × String × String}
    (hk : lookupUser db k.1 = some ⟨k.1, k.2.1, k.2.2⟩)
    (hall : ∀ t ∈ txns, (lookupUser db t.user_id).isSome = true) :
    assocSum (txns.filterMap
        (fun t => (userKey db t).map (fun j => (j, t.amount)))) k
      = ((txns.filter (fun t => t.user_id == k.1)).map (fun t => t.amount)).sum := by
  induction txns with
  | nil => rfl
  | cons t rest ih =>
      have ht := hall t (List.mem_cons_self t rest)
      have hrest := fun x hx => hall x (List.mem_cons_of_mem t hx)
      cases hu : lookupUser db t.user_id with
      | none => rw [hu] at ht; simp at ht
      | some u =>
          have hkey : userKey db t = some (u.id, u.first_name, u.last_name) := by
            rw [userKey, hu, Option.map_some']
          have hid : u.id = t.user_id := (userKey_spec hkey).1
          by_cases heq : t.user_id = k.1
          · have hkk : (u.id, u.first_name, u.last_name) = k := by
              rw [heq] at hu
              rw [hu] at hk
              have husome : u = ⟨k.1, k.2.1, k.2.2⟩ := Option.some.inj hk
              rw [husome]
            simp only [List.filterMap_cons, hkey, Option.map_some']
            rw [assocSum_cons, if_pos hkk, ih hrest]
            rw [List.filter_cons, if_pos (by simpa using heq), List.map_cons,
              List.sum_cons]
          · have hkk : ¬ (u.id, u.first_name, u.last_name) = k := by
              intro hc
              apply heq
              rw [← hid]
              exact congrArg Prod.fst hc
            simp only [List.filterMap_cons, hkey, Option.map_some']
            rw [assocSum_cons, if_neg hkk, ih hrest, zero_add]
            rw [List.filter_cons, if_neg (by simpa using fun hc => heq hc)]

theorem orOne_of_ne {q : ℚ} (h : ¬ q = 0) : orOne q = q := if_neg h

theorem orOne_zero : orOne 0 = 1 := rfl

theorem round1_mul_ten_den (q : ℚ) : (round1 q * 10).den = 1 := by
  have h10 : (10 : ℚ) ≠ 0 := by norm_num
  rw [round1, div_mul_cancel₀ _ h10]
  exact Rat.den_intCast _

theorem sqlSum_of_ne_nil {l : List ℚ} (h : l ≠ []) : sqlSum l = some l.sum := by
  cases l with
  | nil => exact absurd rfl h
  | cons q rest => rfl

theorem groupTxns_user_isSome {db : DB} {gid : Nat} {gs ge : Option Int}
    {cat : Option String} {t : Txn} (h : t ∈ groupTxns db gid gs ge cat) :
    (lookupUser db t.user_id).isSome = true := by
  have hf := (List.mem_filter.1 h).2
  simp only [Bool.and_eq_true] at hf
  exact hf.1.1.1.2

theorem valsSum_userRows (db : DB) (txns : List Txn)
    (h : ∀ t ∈ txns, (lookupUser db t.user_id).isSome = true) :
    valsSum (txns.filterMap
        (fun t => (userKey db t).map (fun j => (j, t.amount))))
      = (txns.map (fun t => t.amount)).sum := by
  induction txns with
  | nil => rfl
  | cons t rest ih =>
      have ht := h t (List.mem_cons_self t rest)
      have hrest := fun x hx => h x (List.mem_cons_of_mem t hx)
      cases hl : lookupUser db t.user_id with
      | none => rw [hl] at ht; simp at ht
      | some u =>
          have hkey : userKey db t = some (u.id, u.first_name, u.last_name) := by
            rw [userKey, hl, Option.map_some']
          simp only [List.filterMap_cons, hkey, Option.map_some']
          rw [valsSum_cons, ih hrest, List.map_cons, List.sum_cons]

theorem keys_userRows_of_mem {db : DB} {txns : List Txn} {t : Txn}
    {k : Nat × String × String} (ht : t ∈ txns) (hk : userKey db t = some k) :
    k ∈ keysOf (txns.filterMap
      (fun x => (userKey db x).map (fun j => (j, x.amount)))) := by
  induction txns with
  | nil => cases ht
  | cons x rest ih =>
      rcases List.mem_cons.1 ht with rfl | ht2
      · simp only [List.filterMap_cons, hk, Option.map_some', keysOf_cons]
        exact List.mem_cons_self _ _
      · cases hux : userKey db x with
        | none =>
            simp only [List.filterMap_cons, hux, Option.map_none']
            exact ih ht2
        | some j =>
            simp only [List.filterMap_cons, hux, Option.map_some', keysOf_cons]
            exact List.mem_cons_of_mem _ (ih ht2)

theorem valsSum_catRows (db : DB) (txns : List Txn) :
    valsSum (txns.map (fun t => (catName db t, t.amount)))
      = (txns.map (fun t => t.amount)).sum := by
  rw [valsSum, List.map_map]
  rfl

theorem gga_total_expenses (db : DB) (gid : Nat) (gs ge : Option Int)
    (cat : Option String) (hne : groupTxns db gid gs ge cat ≠ []) :
    (get_group_analytics db gid gs ge cat).total_expenses
      = typeSum (groupTxns db gid gs ge cat) TransactionType.EXPENSE := by
  simp only [get_group_analytics]
  rw [if_neg hne]

theorem gga_category_breakdown (db : DB) (gid : Nat) (gs ge : Option Int)
    (cat : Option String) (hne : groupTxns db gid gs ge cat ≠ []) :
    (get_group_analytics db gid gs ge cat).category_breakdown
      = (catTotals db (groupTxns db gid gs ge cat)).map (fun g =>
          { category := g.1, amount := g.2,
            percentage := round1 (g.2
              / orOne (typeSum (groupTxns db gid gs ge cat)
                  TransactionType.EXPENSE) * 100) }) := by
  simp only [get_group_analytics]
  rw [if_neg hne]

theorem gga_member_contributions (db : DB) (gid : Nat) (gs ge : Option Int)
    (cat : Option String) (hne : groupTxns db gid gs ge cat ≠ []) :
    (get_group_analytics db gid gs ge cat).member_contributions
      = (userTotals db (groupTxns db gid gs ge cat)).map (fun v =>
          { user_id := v.1.1, first_name := v.1.2.1, last_name := v.1.2.2,
            total_contributed := v.2,
            percentage := round1 (v.2
              / orOne (valsSum (userTotals db (groupTxns db gid gs ge cat)))
              * 100) }) := by
  simp only [get_group_analytics]
  rw [if_neg hne]
  rfl

theorem typeSum_of_all (l : List Txn) (ty : TransactionType)
    (h : ∀ t ∈ l, t.type = ty) :
    typeSum l ty = (l.map (fun t => t.amount)).sum := by
  have hf : l.filter (fun t => t.type == ty) = l :=
    List.filter_eq_self.2 (fun t ht => by simp [h t ht])
  rw [typeSum, hf]

theorem sum_pct_map (l : List (Category × ℚ)) (d : ℚ) :
    ((l.map (fun g =>
          ({ category_name := g.1.name
             category_type := g.1.type
             total_amount := g.2
             percentage := g.2 / d * 100 } : CategorySummary))).map
        (fun r => r.percentage)).sum = valsSum l / d * 100 := by
  induction l with
  | nil => simp [valsSum_nil]
  | cons q rest ih =>
      simp only [List.map_cons, List.sum_cons, ih, valsSum_cons]
      ring

theorem sum_amount_div_map (l : List (String × ℚ)) (e T : ℚ) :
    ((l.map (fun g =>
          ({ category := g.1
             amount := g.2
             percentage := round1 (g.2 / e * 100) } : CategoryBreakdown))).map
        (fun r => r.amount / T * 100)).sum = valsSum l / T * 100 := by
  induction l with
  | nil => simp [valsSum_nil]
  | cons q rest ih =>
      simp only [List.map_cons, List.sum_cons, ih, valsSum_cons]
      ring

theorem datePart_day : datePart "day" = truncDay := by
  rw [datePart, if_neg (by decide), if_neg (by decide)]

theorem datePart_banana : datePart "banana" = truncDay := by
  rw [datePart, if_neg (by decide), if_neg (by decide)]

/-! ### Claim theorems -/

/-- Claim C4: for every user and period whose filtered transaction set is
empty, the overview is the all-zero summary — total income 0, total
expense 0, balance 0, both type buckets present and defaulted to 0 — with
the resolved period echoed; the computation is total, so it never fails on
an empty set. -/
theorem overview_zero_on_empty (db : DB) (uid : Nat) (today : Int)
    (sd ed : Option Int)
    (h : userTxns db uid (resolveStart sd) (resolveEnd today ed) = []) :
    get_overview db uid today sd ed =
      { balance := 0, total_income := 0, total_expense := 0,
        period_start := resolveStart sd, period_end := resolveEnd today ed } := by
  simp [get_overview, h, typeSum]

/-- Witness for C4: the empty database with an unbounded period. -/
theorem overview_zero_on_empty_witness :
    userTxns db0 1 (resolveStart none) (resolveEnd 50 none) = []
      ∧ get_overview db0 1 50 none none =
          { balance := 0, total_income := 0, total_expense := 0,
            period_start := 0, period_end := 50 } :=
  ⟨by decide, overview_zero_on_empty db0 1 50 none none (by decide)⟩

/-- Claim C3 counterexample: in `db3` the group has owner 10 (not an
association member) and members [1, 2]; the filtered set is empty, yet the
returned member count is 2, not the spec's owner-inclusive 3. -/
theorem group_member_count_counterexample :
    groupTxns db3 1 (some 0) (some 10) none = []
      ∧ (get_group_analytics db3 1 (some 0) (some 10) none).member_count = 2
      ∧ lookupGroup db3 1 = some ⟨1, "fam", 10, [1, 2]⟩
      ∧ specMemberCountWithOwner ⟨1, "fam", 10, [1, 2]⟩ = 3
      ∧ (get_group_analytics db3 1 (some 0) (some 10) none).member_count
          ≠ specMemberCountWithOwner ⟨1, "fam", 10, [1, 2]⟩ := by
  refine ⟨by decide, ?_, by decide, by decide, ?_⟩
  · norm_num [get_overview, get_by_category, get_by_date, get_group_analytics, userTxns,
    groupTxns, typeSum, sqlSum, byCategoryGroups, joinCategory, groupTotals,
    addTo, addToGroup, groupByKey, lookupCategory, lookupUser, lookupGroup,
    resolveStart, resolveEnd, datePart_day, datePart_banana, truncDay,
    catTotals, userTotals,
    catName, userKey, orOne, round1, roundHalfEven, byTotalDesc, byDateAsc,
    granularityAccepted, List.insertionSort, List.orderedInsert, List.filter,
    List.filterMap, List.foldl, List.find?, income_beq_income,
    income_beq_expense, expense_beq_income, expense_beq_expense,
    db7, db10, db6, db6b, db5, db8, db3, db0, specMemberCountWithOwner]
  · norm_num [get_overview, get_by_category, get_by_date, get_group_analytics, userTxns,
    groupTxns, typeSum, sqlSum, byCategoryGroups, joinCategory, groupTotals,
    addTo, addToGroup, groupByKey, lookupCategory, lookupUser, lookupGroup,
    resolveStart, resolveEnd, datePart_day, datePart_banana, truncDay,
    catTotals, userTotals,
    catName, userKey, orOne, round1, roundHalfEven, byTotalDesc, byDateAsc,
    granularityAccepted, List.insertionSort, List.orderedInsert, List.filter,
    List.filterMap, List.foldl, List.find?, income_beq_income,
    income_beq_expense, expense_beq_income, expense_beq_expense,
    db7, db10, db6, db6b, db5, db8, db3, db0, specMemberCountWithOwner]

/-- Claim C3 (amended): for every group whose filtered transaction set is
empty, group analytics returns zero totals, zero balance, empty breakdown
lists, echoes the requested period, and reports a member count equal to
the size of the group's member association — which contains the owner
only if the owner was explicitly added as a member (0 when the group id
does not resolve). -/
theorem empty_group_analytics (db : DB) (gid : Nat) (sd ed : Option Int)
    (cat : Option String) (h : groupTxns db gid sd ed cat = []) :
    get_group_analytics db gid sd ed cat =
      { total_expenses := 0, total_income := 0, balance := 0,
        member_count := (lookupGroup db gid).elim 0 (fun g => g.members.length),
        period_start := sd, period_end := ed,
        category_breakdown := [], member_contributions := [] } := by
  cases hg : lookupGroup db gid with
  | none => simp [get_group_analytics, h, hg]
  | some g => simp [get_group_analytics, h, hg]

/-- Witness for C3 (amended): `db3`, whose group has 2 association
members. -/
theorem empty_group_analytics_witness :
    groupTxns db3 1 (some 0) (some 10) none = []
      ∧ get_group_analytics db3 1 (some 0) (some 10) none =
          { total_expenses := 0, total_income := 0, balance := 0,
            member_count := 2, period_start := some 0, period_end := some 10,
            category_breakdown := [], member_contributions := [] } :=
  ⟨by decide, by
    rw [empty_group_analytics db3 1 (some 0) (some 10) none (by decide)]
    rfl⟩

/-- Claim C1: at every aggregation level — the overview, each by-date row,
and the group analytics object — the balance field equals total income
minus total expense exactly. -/
theorem balance_invariant (db : DB) (uid : Nat) (today : Int)
    (sd ed : Option Int) (gb : String) (gid : Nat) (gs ge : Option Int)
    (cat : Option String) :
    ((get_overview db uid today sd ed).balance
        = (get_overview db uid today sd ed).total_income
          - (get_overview db uid today sd ed).total_expense)
    ∧ (∀ row ∈ get_by_date db uid today sd ed gb,
        row.balance = row.income - row.expense)
    ∧ ((get_group_analytics db gid gs ge cat).balance
        = (get_group_analytics db gid gs ge cat).total_income
          - (get_group_analytics db gid gs ge cat).total_expenses) := by
  refine ⟨rfl, ?_, ?_⟩
  · intro row hrow
    simp only [get_by_date] at hrow
    rw [List.mem_insertionSort] at hrow
    rcases List.mem_map.1 hrow with ⟨b, _, rfl⟩
    rfl
  · by_cases h : groupTxns db gid gs ge cat = []
    · simp [get_group_analytics, h]
    · simp [get_group_analytics, h]

/-- Witness for C1: the fixed scenario database and its first by-date row. -/
theorem balance_invariant_witness :
    ((⟨19723, 500, 0, 500⟩ : DailySummary)
        ∈ get_by_date db7 1 20000 (some 19723) (some 19753) "day")
      ∧ ((⟨19723, 500, 0, 500⟩ : DailySummary).balance
          = (⟨19723, 500, 0, 500⟩ : DailySummary).income
            - (⟨19723, 500, 0, 500⟩ : DailySummary).expense) := by
  have hlist : get_by_date db7 1 20000 (some 19723) (some 19753) "day"
      = [⟨19723, 500, 0, 500⟩, ⟨19727, 0, 100, -100⟩,
         ⟨19732, 0, 50, -50⟩] := by
    norm_num [get_overview, get_by_category, get_by_date, get_group_analytics, userTxns,
    groupTxns, typeSum, sqlSum, byCategoryGroups, joinCategory, groupTotals,
    addTo, addToGroup, groupByKey, lookupCategory, lookupUser, lookupGroup,
    resolveStart, resolveEnd, datePart_day, datePart_banana, truncDay,
    catTotals, userTotals,
    catName, userKey, orOne, round1, roundHalfEven, byTotalDesc, byDateAsc,
    granularityAccepted, List.insertionSort, List.orderedInsert, List.filter,
    List.filterMap, List.foldl, List.find?, income_beq_income,
    income_beq_expense, expense_beq_income, expense_beq_expense,
    db7, db10, db6, db6b, db5, db8, db3, db0]
  have hmem : (⟨19723, 500, 0, 500⟩ : DailySummary)
      ∈ get_by_date db7 1 20000 (some 19723) (some 19753) "day" := by
    rw [hlist]
    exact List.mem_cons_self _ _
  exact ⟨hmem,
    (balance_invariant db7 1 20000 (some 19723) (some 19753) "day" 1 none none
      none).2.1 _ hmem⟩

/-- Claim C9 counterexample: the service does not fail fast on the
unsupported granularity "banana" — it silently produces exactly the "day"
bucketing (a normal non-empty result), while the API regex rejects the
value. -/
theorem granularity_counterexample :
    granularityAccepted "banana" = false
      ∧ get_by_date db7 1 20000 (some 19723) (some 19753) "banana"
          = get_by_date db7 1 20000 (some 19723) (some 19753) "day"
      ∧ get_by_date db7 1 20000 (some 19723) (some 19753) "banana"
          = [⟨19723, 500, 0, 500⟩, ⟨19727, 0, 100, -100⟩,
             ⟨19732, 0, 50, -50⟩] := by
  have hb : get_by_date db7 1 20000 (some 19723) (some 19753) "banana"
      = [⟨19723, 500, 0, 500⟩, ⟨19727, 0, 100, -100⟩,
         ⟨19732, 0, 50, -50⟩] := by
    norm_num [get_overview, get_by_category, get_by_date, get_group_analytics, userTxns,
    groupTxns, typeSum, sqlSum, byCategoryGroups, joinCategory, groupTotals,
    addTo, addToGroup, groupByKey, lookupCategory, lookupUser, lookupGroup,
    resolveStart, resolveEnd, datePart_day, datePart_banana, truncDay,
    catTotals, userTotals,
    catName, userKey, orOne, round1, roundHalfEven, byTotalDesc, byDateAsc,
    granularityAccepted, List.insertionSort, List.orderedInsert, List.filter,
    List.filterMap, List.foldl, List.find?, income_beq_income,
    income_beq_expense, expense_beq_income, expense_beq_expense,
    db7, db10, db6, db6b, db5, db8, db3, db0]
  have hd : get_by_date db7 1 20000 (some 19723) (some 19753) "day"
      = [⟨19723, 500, 0, 500⟩, ⟨19727, 0, 100, -100⟩,
         ⟨19732, 0, 50, -50⟩] := by
    norm_num [get_overview, get_by_category, get_by_date, get_group_analytics, userTxns,
    groupTxns, typeSum, sqlSum, byCategoryGroups, joinCategory, groupTotals,
    addTo, addToGroup, groupByKey, lookupCategory, lookupUser, lookupGroup,
    resolveStart, resolveEnd, datePart_day, datePart_banana, truncDay,
    catTotals, userTotals,
    catName, userKey, orOne, round1, roundHalfEven, byTotalDesc, byDateAsc,
    granularityAccepted, List.insertionSort, List.orderedInsert, List.filter,
    List.filterMap, List.foldl, List.find?, income_beq_income,
    income_beq_expense, expense_beq_income, expense_beq_expense,
    db7, db10, db6, db6b, db5, db8, db3, db0]
  exact ⟨by decide, by rw [hb, hd], hb⟩

/-- Claim C9 (amended): granularity validation lives in the API layer — the
anchored regex accepts exactly day, week and month, and rejects any other
value as a bad request before the service runs; the service itself does
not fail fast: an unrecognized granularity silently falls back to day
bucketing. -/
theorem granularity_amended (g : String)
    (h1 : g ≠ "day") (h2 : g ≠ "week") (h3 : g ≠ "month") :
    granularityAccepted g = false
      ∧ datePart g = truncDay
      ∧ ∀ db uid today sd ed,
          get_by_date db uid today sd ed g
            = get_by_date db uid today sd ed "day" := by
  have hdp : datePart g = truncDay := by
    rw [datePart, if_neg h2, if_neg h3]
  have hday : datePart "day" = truncDay := by
    rw [datePart, if_neg (by decide), if_neg (by decide)]
  refine ⟨?_, hdp, ?_⟩
  · simp [granularityAccepted, h1, h2, h3]
  · intro db uid today sd ed
    simp only [get_by_date]
    rw [hdp, hday]

/-- Witness for C9 (amended): the granularity string "banana". -/
theorem granularity_amended_witness :
    ("banana" ≠ "day" ∧ "banana" ≠ "week" ∧ "banana" ≠ "month")
      ∧ (granularityAccepted "banana" = false
          ∧ datePart "banana" = truncDay
          ∧ ∀ db uid today sd ed,
              get_by_date db uid today sd ed "banana"
                = get_by_date db uid today sd ed "day") :=
  ⟨⟨by decide, by decide, by decide⟩,
    granularity_amended "banana" (by decide) (by decide) (by decide)⟩

/-- Claim C7 counterexample: on the fixed scenario, byCategory returns
three rows, not the claimed two — the income category Salary is included
in the breakdown with a percentage computed against the expense-only
denominator. -/
theorem fixed_scenario_counterexample :
    (get_by_category db7 1 20000 (some 19723) (some 19753)).map List.length
        = some 3
      ∧ (3 : Nat) ≠ 2
      ∧ get_by_category db7 1 20000 (some 19723) (some 19753)
          ≠ some [⟨"Food", "expense", 100, 667/10⟩,
                  ⟨"Transport", "expense", 50, 333/10⟩] := by
  have h : get_by_category db7 1 20000 (some 19723) (some 19753) =
      some [⟨"Salary", "income", 500, 1000/3⟩,
            ⟨"Food", "expense", 100, 200/3⟩,
            ⟨"Transport", "expense", 50, 100/3⟩] := by
    norm_num [get_overview, get_by_category, get_by_date, get_group_analytics, userTxns,
    groupTxns, typeSum, sqlSum, byCategoryGroups, joinCategory, groupTotals,
    addTo, addToGroup, groupByKey, lookupCategory, lookupUser, lookupGroup,
    resolveStart, resolveEnd, datePart_day, datePart_banana, truncDay,
    catTotals, userTotals,
    catName, userKey, orOne, round1, roundHalfEven, byTotalDesc, byDateAsc,
    granularityAccepted, List.insertionSort, List.orderedInsert, List.filter,
    List.filterMap, List.foldl, List.find?, income_beq_income,
    income_beq_expense, expense_beq_income, expense_beq_expense,
    db7, db10, db6, db6b, db5, db8, db3, db0]
  refine ⟨by rw [h]; rfl, by decide, ?_⟩
  rw [h]
  intro hc
  simp at hc

/-- Claim C7 (amended): on the fixed scenario the overview is
total income 500, total expense 150, balance 350; byCategory returns
three rows ordered by descending total — Salary (500, percentage 1000/3,
computed against the expense-only denominator 150), then Food (100,
percentage 200/3), then Transport (50, percentage 100/3); the percentage
values are exact unrounded quotients. -/
theorem fixed_scenario_amended :
    get_overview db7 1 20000 (some 19723) (some 19753) =
        { balance := 350, total_income := 500, total_expense := 150,
          period_start := 19723, period_end := 19753 }
      ∧ get_by_category db7 1 20000 (some 19723) (some 19753) =
          some [⟨"Salary", "income", 500, 1000/3⟩,
                ⟨"Food", "expense", 100, 200/3⟩,
                ⟨"Transport", "expense", 50, 100/3⟩] := by
  constructor
  · norm_num [get_overview, get_by_category, get_by_date, get_group_analytics, userTxns,
    groupTxns, typeSum, sqlSum, byCategoryGroups, joinCategory, groupTotals,
    addTo, addToGroup, groupByKey, lookupCategory, lookupUser, lookupGroup,
    resolveStart, resolveEnd, datePart_day, datePart_banana, truncDay,
    catTotals, userTotals,
    catName, userKey, orOne, round1, roundHalfEven, byTotalDesc, byDateAsc,
    granularityAccepted, List.insertionSort, List.orderedInsert, List.filter,
    List.filterMap, List.foldl, List.find?, income_beq_income,
    income_beq_expense, expense_beq_income, expense_beq_expense,
    db7, db10, db6, db6b, db5, db8, db3, db0]
  · norm_num [get_overview, get_by_category, get_by_date, get_group_analytics, userTxns,
    groupTxns, typeSum, sqlSum, byCategoryGroups, joinCategory, groupTotals,
    addTo, addToGroup, groupByKey, lookupCategory, lookupUser, lookupGroup,
    resolveStart, resolveEnd, datePart_day, datePart_banana, truncDay,
    catTotals, userTotals,
    catName, userKey, orOne, round1, roundHalfEven, byTotalDesc, byDateAsc,
    granularityAccepted, List.insertionSort, List.orderedInsert, List.filter,
    List.filterMap, List.foldl, List.find?, income_beq_income,
    income_beq_expense, expense_beq_income, expense_beq_expense,
    db7, db10, db6, db6b, db5, db8, db3, db0]

/-- Claim C5 counterexample: in `db5` the group's only transaction is an
income of 5, so the expense total is 0 and the fallback denominator 1.0 is
used — but the resulting category row reports 500 percent, not the claimed
0 percent. -/
theorem zero_denominator_counterexample :
    (get_group_analytics db5 1 none none none).total_expenses = 0
      ∧ (get_group_analytics db5 1 none none none).category_breakdown
          = [⟨"Gift", 5, 500⟩]
      ∧ ((500 : ℚ) ≠ 0) := by
  refine ⟨?_, ?_, by norm_num⟩
  · norm_num [get_overview, get_by_category, get_by_date, get_group_analytics, userTxns,
    groupTxns, typeSum, sqlSum, byCategoryGroups, joinCategory, groupTotals,
    addTo, addToGroup, groupByKey, lookupCategory, lookupUser, lookupGroup,
    resolveStart, resolveEnd, datePart_day, datePart_banana, truncDay,
    catTotals, userTotals,
    catName, userKey, orOne, round1, roundHalfEven, byTotalDesc, byDateAsc,
    granularityAccepted, List.insertionSort, List.orderedInsert, List.filter,
    List.filterMap, List.foldl, List.find?, income_beq_income,
    income_beq_expense, expense_beq_income, expense_beq_expense,
    db7, db10, db6, db6b, db5, db5w, db8, db3, db0]
  · norm_num [get_overview, get_by_category, get_by_date, get_group_analytics, userTxns,
    groupTxns, typeSum, sqlSum, byCategoryGroups, joinCategory, groupTotals,
    addTo, addToGroup, groupByKey, lookupCategory, lookupUser, lookupGroup,
    resolveStart, resolveEnd, datePart_day, datePart_banana, truncDay,
    catTotals, userTotals,
    catName, userKey, orOne, round1, roundHalfEven, byTotalDesc, byDateAsc,
    granularityAccepted, List.insertionSort, List.orderedInsert, List.filter,
    List.filterMap, List.foldl, List.find?, income_beq_income,
    income_beq_expense, expense_beq_income, expense_beq_expense,
    db7, db10, db6, db6b, db5, db5w, db8, db3, db0]

/-- Claim C5 (amended): no percentage computation raises or yields
NaN/Infinity.  When the user has no expense transactions in the period,
byCategory returns rows whose percentage is 0 (the SQL NULL denominator is
coalesced to 0); with positive amounts the query is always defined.  In
group analytics, a zero expense total (respectively a zero total member
contribution) is replaced by the fallback denominator exactly 1.0, so each
row's percentage is its amount (respectively member total) times 100,
rounded to one decimal — not a 0-percent row. -/
theorem zero_denominator_amended (db : DB) (uid : Nat) (today : Int)
    (sd ed : Option Int) (gid : Nat) (gs ge : Option Int)
    (cat : Option String) :
    ((userTxns db uid (resolveStart sd) (resolveEnd today ed)).filter
          (fun t => t.type == TransactionType.EXPENSE) = [] →
        ∃ rows, get_by_category db uid today sd ed = some rows
          ∧ ∀ r ∈ rows, r.percentage = 0)
      ∧ ((∀ t ∈ userTxns db uid (resolveStart sd) (resolveEnd today ed),
            0 < t.amount) →
          (get_by_category db uid today sd ed).isSome = true)
      ∧ (groupTxns db gid gs ge cat ≠ [] →
          typeSum (groupTxns db gid gs ge cat) TransactionType.EXPENSE = 0 →
          ∀ r ∈ (get_group_analytics db gid gs ge cat).category_breakdown,
            r.percentage = round1 (r.amount * 100))
      ∧ (groupTxns db gid gs ge cat ≠ [] →
          valsSum (userTotals db (groupTxns db gid gs ge cat)) = 0 →
          ∀ r ∈ (get_group_analytics db gid gs ge cat).member_contributions,
            r.percentage = round1 (r.total_contributed * 100)) := by
  refine ⟨?_, ?_, ?_, ?_⟩
  · intro hz
    simp only [get_by_category]
    rw [hz, List.map_nil]
    rw [show sqlSum ([] : List ℚ) = none from rfl]
    refine ⟨_, rfl, ?_⟩
    intro r hr
    rcases List.mem_map.1 hr with ⟨g, _, rfl⟩
    rfl
  · intro hpos
    cases hE : (userTxns db uid (resolveStart sd) (resolveEnd today ed)).filter
        (fun t => t.type == TransactionType.EXPENSE) with
    | nil =>
        simp only [get_by_category]
        rw [hE, List.map_nil]
        rw [show sqlSum ([] : List ℚ) = none from rfl]
        rfl
    | cons t ts =>
        have hsum : 0 < ((t :: ts).map (fun x => x.amount)).sum := by
          apply List.sum_pos
          · intro x hx
            rcases List.mem_map.1 hx with ⟨y, hy, rfl⟩
            rw [← hE] at hy
            exact hpos y (List.mem_filter.1 hy).1
          · simp
        have hd : sqlSum (((userTxns db uid (resolveStart sd)
              (resolveEnd today ed)).filter
              (fun t => t.type == TransactionType.EXPENSE)).map
              (fun t => t.amount))
            = some (((t :: ts)).map (fun t => t.amount)).sum := by
          rw [hE]
          exact sqlSum_of_ne_nil (by simp)
        simp only [get_by_category, hd]
        rw [if_neg]
        · rfl
        · rintro ⟨h0, _⟩
          exact absurd h0 (ne_of_gt hsum)
  · intro hne hz r hr
    rw [gga_category_breakdown db gid gs ge cat hne, hz, orOne_zero] at hr
    rcases List.mem_map.1 hr with ⟨g, _, rfl⟩
    simp [div_one]
  · intro hne hz r hr
    rw [gga_member_contributions db gid gs ge cat hne, hz, orOne_zero] at hr
    rcases List.mem_map.1 hr with ⟨g, _, rfl⟩
    simp [div_one]

/-- Witness for C5 (amended): `db5w`, whose user 1 has only income and
whose group 2 has a single zero-amount transaction. -/
theorem zero_denominator_amended_witness :
    (∃ rows, get_by_category db5w 1 20 none none = some rows
        ∧ ∀ r ∈ rows, r.percentage = 0)
      ∧ (get_by_category db5w 1 20 none none).isSome = true
      ∧ (∀ r ∈ (get_group_analytics db5w 2 none none none).category_breakdown,
          r.percentage = round1 (r.amount * 100))
      ∧ (∀ r ∈ (get_group_analytics db5w 2 none none none).member_contributions,
          r.percentage = round1 (r.total_contributed * 100)) := by
  obtain ⟨ha, hb, hc, hd⟩ :=
    zero_denominator_amended db5w 1 20 none none 2 none none none
  exact ⟨ha (by decide), hb (by decide), hc (by decide) (by decide),
    hd (by decide) (by with_unfolding_all decide)⟩
/-- Claim C10: percentage precision differs between the two breakdown
families.  Every percentage emitted by group analytics (category breakdown
and member contributions) is rounded to exactly one decimal place (times
10 it is an integer), while the personal byCategory percentages are exact
unrounded quotients; on the same shares (expenses 100 and 50) the personal
breakdown reports 200/3 percent where the group breakdown reports 66.7. -/
theorem rounding_asymmetry :
    (∀ db gid gs ge cat,
        ∀ r ∈ (get_group_analytics db gid gs ge cat).category_breakdown,
          (r.percentage * 10).den = 1)
      ∧ (∀ db gid gs ge cat,
          ∀ r ∈ (get_group_analytics db gid gs ge cat).member_contributions,
            (r.percentage * 10).den = 1)
      ∧ get_by_category db10 1 100 (some 0) (some 10)
          = some [⟨"Food", "expense", 100, 200/3⟩,
                  ⟨"Transport", "expense", 50, 100/3⟩]
      ∧ ((200 : ℚ)/3 * 10).den ≠ 1
      ∧ (get_group_analytics db10 1 (some 0) (some 10) none).category_breakdown
          = [⟨"Food", 100, 667/10⟩, ⟨"Transport", 50, 333/10⟩]
      ∧ ((667 : ℚ)/10 ≠ (200 : ℚ)/3) := by
  refine ⟨?_, ?_, by norm_num [get_overview, get_by_category, get_by_date, get_group_analytics, userTxns,
    groupTxns, typeSum, sqlSum, byCategoryGroups, joinCategory, groupTotals,
    addTo, addToGroup, groupByKey, lookupCategory, lookupUser, lookupGroup,
    resolveStart, resolveEnd, datePart_day, datePart_banana, truncDay,
    catTotals, userTotals,
    catName, userKey, orOne, round1, roundHalfEven, byTotalDesc, byDateAsc,
    granularityAccepted, List.insertionSort, List.orderedInsert, List.filter,
    List.filterMap, List.foldl, List.find?, income_beq_income,
    income_beq_expense, expense_beq_income, expense_beq_expense,
    db7, db10, db6, db6b, db5, db5w, db8, db3, db0], by with_unfolding_all decide,
    by with_unfolding_all decide, by with_unfolding_all decide⟩
  · intro db gid gs ge cat r hr
    by_cases h : groupTxns db gid gs ge cat = []
    · simp [get_group_analytics, h] at hr
    · rw [gga_category_breakdown db gid gs ge cat h] at hr
      rcases List.mem_map.1 hr with ⟨g, _, rfl⟩
      exact round1_mul_ten_den _
  · intro db gid gs ge cat r hr
    by_cases h : groupTxns db gid gs ge cat = []
    · simp [get_group_analytics, h] at hr
    · rw [gga_member_contributions db gid gs ge cat h] at hr
      rcases List.mem_map.1 hr with ⟨g, _, rfl⟩
      exact round1_mul_ten_den _

/-- Witness for C10: concrete rows of the `db10` group breakdowns. -/
theorem rounding_asymmetry_witness :
    ((⟨"Food", 100, 667/10⟩ : CategoryBreakdown)
        ∈ (get_group_analytics db10 1 (some 0) (some 10) none).category_breakdown)
      ∧ (((⟨"Food", 100, 667/10⟩ : CategoryBreakdown).percentage * 10).den = 1)
      ∧ ((⟨1, "Alice", "Smith", 150, 100⟩ : MemberContribution)
          ∈ (get_group_analytics db10 1 (some 0) (some 10) none).member_contributions)
      ∧ (((⟨1, "Alice", "Smith", 150, 100⟩ : MemberContribution).percentage
          * 10).den = 1) := by
  have hbd : (get_group_analytics db10 1 (some 0) (some 10) none).category_breakdown
      = [⟨"Food", 100, 667/10⟩, ⟨"Transport", 50, 333/10⟩] := by
    with_unfolding_all decide
  have hmc : (get_group_analytics db10 1 (some 0) (some 10) none).member_contributions
      = [⟨1, "Alice", "Smith", 150, 100⟩] := by
    with_unfolding_all decide
  have hm1 : (⟨"Food", 100, 667/10⟩ : CategoryBreakdown)
      ∈ (get_group_analytics db10 1 (some 0) (some 10) none).category_breakdown := by
    rw [hbd]
    exact List.mem_cons_self _ _
  have hm2 : (⟨1, "Alice", "Smith", 150, 100⟩ : MemberContribution)
      ∈ (get_group_analytics db10 1 (some 0) (some 10) none).member_contributions := by
    rw [hmc]
    exact List.mem_cons_self _ _
  exact ⟨hm1, (rounding_asymmetry).1 db10 1 (some 0) (some 10) none _ hm1,
    hm2, (rounding_asymmetry).2.1 db10 1 (some 0) (some 10) none _ hm2⟩

/-- Claim C2 counterexample: on the fixed scenario the breakdown is
non-empty and the expense denominator is 150 (nonzero), yet the percentage
fields sum to 1300/3 (about 433.3) — the income row Salary is measured
against the expense-only denominator, so the sum is nowhere near 100. -/
theorem percentage_closure_counterexample :
    (get_by_category db7 1 20000 (some 19723) (some 19753)).map
        (fun l => (l.map (fun r => r.percentage)).sum) = some (1300/3)
      ∧ sqlSum (((userTxns db7 1 19723 19753).filter
            (fun t => t.type == TransactionType.EXPENSE)).map
            (fun t => t.amount)) = some 150
      ∧ ((150 : ℚ) ≠ 0)
      ∧ ¬ |(1300 : ℚ)/3 - 100| ≤ 1/10 := by
  have h : get_by_category db7 1 20000 (some 19723) (some 19753) =
      some [⟨"Salary", "income", 500, 1000/3⟩,
            ⟨"Food", "expense", 100, 200/3⟩,
            ⟨"Transport", "expense", 50, 100/3⟩] := by
    norm_num [get_overview, get_by_category, get_by_date, get_group_analytics, userTxns,
    groupTxns, typeSum, sqlSum, byCategoryGroups, joinCategory, groupTotals,
    addTo, addToGroup, groupByKey, lookupCategory, lookupUser, lookupGroup,
    resolveStart, resolveEnd, datePart_day, datePart_banana, truncDay,
    catTotals, userTotals,
    catName, userKey, orOne, round1, roundHalfEven, byTotalDesc, byDateAsc,
    granularityAccepted, List.insertionSort, List.orderedInsert, List.filter,
    List.filterMap, List.foldl, List.find?, income_beq_income,
    income_beq_expense, expense_beq_income, expense_beq_expense,
    db7, db10, db6, db6b, db5, db5w, db8, db3, db0]
  refine ⟨?_, ?_, by norm_num, by rw [abs_le]; norm_num⟩
  · rw [h]
    norm_num
  · norm_num [get_overview, get_by_category, get_by_date, get_group_analytics, userTxns,
    groupTxns, typeSum, sqlSum, byCategoryGroups, joinCategory, groupTotals,
    addTo, addToGroup, groupByKey, lookupCategory, lookupUser, lookupGroup,
    resolveStart, resolveEnd, datePart_day, datePart_banana, truncDay,
    catTotals, userTotals,
    catName, userKey, orOne, round1, roundHalfEven, byTotalDesc, byDateAsc,
    granularityAccepted, List.insertionSort, List.orderedInsert, List.filter,
    List.filterMap, List.foldl, List.find?, income_beq_income,
    income_beq_expense, expense_beq_income, expense_beq_expense,
    db7, db10, db6, db6b, db5, db5w, db8, db3, db0]

/-- Claim C2 (amended): the percentage fields of a breakdown sum to 100
only when the filtered transactions are all expenses.  For the personal
byCategory (given resolvable categories, positive amounts and a non-empty
set) the unrounded percentages sum to exactly 100, and for the group
category breakdown the unrounded quotients amount/total_expense*100 sum to
exactly 100, each reported percentage being that quotient rounded to one
decimal place. -/
theorem percentage_closure_amended (db : DB) (uid : Nat) (today : Int)
    (sd ed : Option Int) (gid : Nat) (gs ge : Option Int)
    (cat : Option String) :
    ((userTxns db uid (resolveStart sd) (resolveEnd today ed) ≠ []) →
        (∀ t ∈ userTxns db uid (resolveStart sd) (resolveEnd today ed),
          t.type = TransactionType.EXPENSE) →
        (∀ t ∈ userTxns db uid (resolveStart sd) (resolveEnd today ed),
          0 < t.amount) →
        (∀ t ∈ userTxns db uid (resolveStart sd) (resolveEnd today ed),
          (lookupCategory db t.category_id).isSome = true) →
        ∃ rows, get_by_category db uid today sd ed = some rows
          ∧ (rows.map (fun r => r.percentage)).sum = 100)
      ∧ ((groupTxns db gid gs ge cat ≠ []) →
          (∀ t ∈ groupTxns db gid gs ge cat, t.type = TransactionType.EXPENSE) →
          (∀ t ∈ groupTxns db gid gs ge cat, 0 < t.amount) →
          ((get_group_analytics db gid gs ge cat).category_breakdown.map
              (fun r => r.amount
                / (get_group_analytics db gid gs ge cat).total_expenses
                * 100)).sum = 100
            ∧ ∀ r ∈ (get_group_analytics db gid gs ge cat).category_breakdown,
                r.percentage = round1 (r.amount
                  / (get_group_analytics db gid gs ge cat).total_expenses
                  * 100)) := by
  constructor
  · intro hne hexp hpos hcat
    have hfil : (userTxns db uid (resolveStart sd) (resolveEnd today ed)).filter
        (fun t => t.type == TransactionType.EXPENSE)
        = userTxns db uid (resolveStart sd) (resolveEnd today ed) :=
      List.filter_eq_self.2 (fun t ht => by simp [hexp t ht])
    have hmapne : (userTxns db uid (resolveStart sd) (resolveEnd today ed)).map
        (fun t => t.amount) ≠ [] :=
      fun hc => hne (List.map_eq_nil_iff.1 hc)
    have hd : sqlSum (((userTxns db uid (resolveStart sd)
          (resolveEnd today ed)).filter
          (fun t => t.type == TransactionType.EXPENSE)).map (fun t => t.amount))
        = some (((userTxns db uid (resolveStart sd) (resolveEnd today ed)).map
            (fun t => t.amount)).sum) := by
      rw [hfil]
      exact sqlSum_of_ne_nil hmapne
    have hSpos : 0 < ((userTxns db uid (resolveStart sd)
        (resolveEnd today ed)).map (fun t => t.amount)).sum := by
      apply List.sum_pos
      · intro x hx
        rcases List.mem_map.1 hx with ⟨y, hy, rfl⟩
        exact hpos y hy
      · exact hmapne
    simp only [get_by_category, hd]
    rw [if_neg (fun hc => absurd hc.1 (ne_of_gt hSpos))]
    refine ⟨_, rfl, ?_⟩
    rw [sum_pct_map]
    have hvs : valsSum (byCategoryGroups db uid (resolveStart sd)
        (resolveEnd today ed))
        = ((userTxns db uid (resolveStart sd) (resolveEnd today ed)).map
            (fun t => t.amount)).sum := by
      rw [byCategoryGroups,
        valsSum_perm (List.perm_insertionSort byTotalDesc _),
        valsSum_groupTotals]
      exact valsSum_joinCategory db _ hcat
    rw [hvs, div_self (ne_of_gt hSpos), one_mul]
  · intro hne hexp hpos
    have hTe : typeSum (groupTxns db gid gs ge cat) TransactionType.EXPENSE
        = ((groupTxns db gid gs ge cat).map (fun t => t.amount)).sum :=
      typeSum_of_all _ _ hexp
    have hmapne : (groupTxns db gid gs ge cat).map (fun t => t.amount) ≠ [] :=
      fun hc => hne (List.map_eq_nil_iff.1 hc)
    have hTpos : 0 < ((groupTxns db gid gs ge cat).map
        (fun t => t.amount)).sum := by
      apply List.sum_pos
      · intro x hx
        rcases List.mem_map.1 hx with ⟨y, hy, rfl⟩
        exact hpos y hy
      · exact hmapne
    have hte2 : (get_group_analytics db gid gs ge cat).total_expenses
        = ((groupTxns db gid gs ge cat).map (fun t => t.amount)).sum := by
      rw [gga_total_expenses db gid gs ge cat hne, hTe]
    constructor
    · rw [gga_category_breakdown db gid gs ge cat hne, hte2, sum_amount_div_map]
      have hvs : valsSum (catTotals db (groupTxns db gid gs ge cat))
          = ((groupTxns db gid gs ge cat).map (fun t => t.amount)).sum := by
        rw [catTotals, valsSum_groupTotals, valsSum_catRows]
      rw [hvs, div_self (ne_of_gt hTpos), one_mul]
    · intro r hr
      rw [gga_category_breakdown db gid gs ge cat hne] at hr
      rcases List.mem_map.1 hr with ⟨g, _, rfl⟩
      rw [hte2]
      simp only [hTe, orOne_of_ne (ne_of_gt hTpos)]

/-- Witness for C2 (amended): `db10`, expense-only in both the personal and
the group scope. -/
theorem percentage_closure_amended_witness :
    (∃ rows, get_by_category db10 1 100 (some 0) (some 10) = some rows
        ∧ (rows.map (fun r => r.percentage)).sum = 100)
      ∧ ((get_group_analytics db10 1 (some 0) (some 10) none).category_breakdown.map
          (fun r => r.amount
            / (get_group_analytics db10 1 (some 0) (some 10) none).total_expenses
            * 100)).sum = 100 := by
  obtain ⟨hp, hg⟩ :=
    percentage_closure_amended db10 1 100 (some 0) (some 10) 1 (some 0)
      (some 10) none
  exact ⟨hp (by decide) (by decide) (by decide) (by decide),
    (hg (by decide) (by decide) (by decide)).1⟩

/-- Claim C8 counterexample: in `db8` the categories "B" and "A" tie at
total 50, and the output keeps the grouping order ["B", "A"] — not the
claimed deterministic category-name-ascending order ["A", "B"]. -/
theorem category_order_counterexample :
    (get_by_category db8 1 100 (some 0) (some 10)).map
        (fun l => l.map (fun r => r.category_name)) = some ["B", "A"]
      ∧ (get_by_category db8 1 100 (some 0) (some 10)).map
          (fun l => l.map (fun r => r.total_amount)) = some [50, 50]
      ∧ (("A" : String) < "B")
      ∧ ((["B", "A"] : List String) ≠ ["A", "B"]) := by
  have h : get_by_category db8 1 100 (some 0) (some 10)
      = some [⟨"B", "expense", 50, 50⟩, ⟨"A", "expense", 50, 50⟩] := by
    norm_num [get_overview, get_by_category, get_by_date, get_group_analytics, userTxns,
    groupTxns, typeSum, sqlSum, byCategoryGroups, joinCategory, groupTotals,
    addTo, addToGroup, groupByKey, lookupCategory, lookupUser, lookupGroup,
    resolveStart, resolveEnd, datePart_day, datePart_banana, truncDay,
    catTotals, userTotals,
    catName, userKey, orOne, round1, roundHalfEven, byTotalDesc, byDateAsc,
    granularityAccepted, List.insertionSort, List.orderedInsert, List.filter,
    List.filterMap, List.foldl, List.find?, income_beq_income,
    income_beq_expense, expense_beq_income, expense_beq_expense,
    db7, db10, db6, db6b, db5, db5w, db8, db3, db0]
  refine ⟨by rw [h]; rfl, by rw [h]; rfl, by with_unfolding_all decide,
    by decide⟩

/-- Claim C8 (amended): byCategory returns one entry per distinct category
of the filtered set (its length equals the number of distinct resolvable
categories), sorted by descending total amount; ties on equal totals are
NOT broken by category name — they stay in the underlying grouping order,
so equal-total output order carries no name-based guarantee. -/
theorem category_order_amended (db : DB) (uid : Nat) (today : Int)
    (sd ed : Option Int) (rows : List CategorySummary)
    (h : get_by_category db uid today sd ed = some rows) :
    rows.Pairwise (fun a b => b.total_amount ≤ a.total_amount)
      ∧ rows.length = ((userTxns db uid (resolveStart sd)
          (resolveEnd today ed)).filterMap
          (fun t => lookupCategory db t.category_id)).dedup.length := by
  obtain ⟨F, hF, hFt⟩ : ∃ F : Category × ℚ → CategorySummary,
      rows = (byCategoryGroups db uid (resolveStart sd)
          (resolveEnd today ed)).map F
        ∧ ∀ g, (F g).total_amount = g.2 := by
    rcases hsq : sqlSum (((userTxns db uid (resolveStart sd)
        (resolveEnd today ed)).filter
        (fun t => t.type == TransactionType.EXPENSE)).map (fun t => t.amount))
        with _ | d
    · simp only [get_by_category, hsq] at h
      exact ⟨_, (Option.some.inj h).symm, fun g => rfl⟩
    · simp only [get_by_category, hsq] at h
      by_cases hc : d = 0 ∧ byCategoryGroups db uid (resolveStart sd)
          (resolveEnd today ed) ≠ []
      · rw [if_pos hc] at h
        cases h
      · rw [if_neg hc] at h
        exact ⟨_, (Option.some.inj h).symm, fun g => rfl⟩
  constructor
  · rw [hF]
    apply List.pairwise_map.2
    have hs : List.Pairwise byTotalDesc (byCategoryGroups db uid
        (resolveStart sd) (resolveEnd today ed)) :=
      List.sorted_insertionSort byTotalDesc _
    apply hs.imp
    intro a b hab
    rw [hFt a, hFt b]
    exact hab
  · rw [hF, List.length_map]
    have hperm := List.perm_insertionSort byTotalDesc
      (groupTotals (joinCategory db (userTxns db uid (resolveStart sd)
        (resolveEnd today ed))))
    rw [byCategoryGroups, hperm.length_eq]
    rw [show (groupTotals (joinCategory db (userTxns db uid (resolveStart sd)
        (resolveEnd today ed)))).length
      = (keysOf (groupTotals (joinCategory db (userTxns db uid
          (resolveStart sd) (resolveEnd today ed))))).length
      from (List.length_map _ _).symm]
    have hnd1 := nodup_keys_groupTotals (joinCategory db (userTxns db uid
      (resolveStart sd) (resolveEnd today ed)))
    have hnd2 := List.nodup_dedup ((userTxns db uid (resolveStart sd)
      (resolveEnd today ed)).filterMap (fun t => lookupCategory db t.category_id))
    have hmem : ∀ c, c ∈ keysOf (groupTotals (joinCategory db (userTxns db uid
        (resolveStart sd) (resolveEnd today ed))))
        ↔ c ∈ ((userTxns db uid (resolveStart sd)
            (resolveEnd today ed)).filterMap
            (fun t => lookupCategory db t.category_id)).dedup := by
      intro c
      rw [mem_keys_groupTotals, keysOf_joinCategory, List.mem_dedup]
    exact ((List.perm_ext_iff_of_nodup hnd1 hnd2).2 hmem).length_eq

/-- Witness for C8 (amended): the concrete `db8` output. -/
theorem category_order_amended_witness :
    get_by_category db8 1 100 (some 0) (some 10)
        = some [⟨"B", "expense", 50, 50⟩, ⟨"A", "expense", 50, 50⟩]
      ∧ ([⟨"B", "expense", 50, 50⟩,
          ⟨"A", "expense", 50, 50⟩] : List CategorySummary).Pairwise
          (fun a b => b.total_amount ≤ a.total_amount)
      ∧ ([⟨"B", "expense", 50, 50⟩,
          ⟨"A", "expense", 50, 50⟩] : List CategorySummary).length
          = ((userTxns db8 1 (resolveStart (some 0))
              (resolveEnd 100 (some 10))).filterMap
              (fun t => lookupCategory db8 t.category_id)).dedup.length := by
  have h : get_by_category db8 1 100 (some 0) (some 10)
      = some [⟨"B", "expense", 50, 50⟩, ⟨"A", "expense", 50, 50⟩] := by
    norm_num [get_overview, get_by_category, get_by_date, get_group_analytics, userTxns,
    groupTxns, typeSum, sqlSum, byCategoryGroups, joinCategory, groupTotals,
    addTo, addToGroup, groupByKey, lookupCategory, lookupUser, lookupGroup,
    resolveStart, resolveEnd, datePart_day, datePart_banana, truncDay,
    catTotals, userTotals,
    catName, userKey, orOne, round1, roundHalfEven, byTotalDesc, byDateAsc,
    granularityAccepted, List.insertionSort, List.orderedInsert, List.filter,
    List.filterMap, List.foldl, List.find?, income_beq_income,
    income_beq_expense, expense_beq_income, expense_beq_expense,
    db7, db10, db6, db6b, db5, db5w, db8, db3, db0]
  obtain ⟨h1, h2⟩ := category_order_amended db8 1 100 (some 0) (some 10) _ h
  exact ⟨h, h1, h2⟩

/-- Claim C6 counterexample: in `db6` the member totals are 1 and 2, so the
claimed exact percentage of the first member would be 1/3 of 100 = 100/3;
the code reports 33.3 (the quotient rounded to one decimal place), which
differs from 100/3. -/
theorem member_percentage_counterexample :
    (get_group_analytics db6 1 (some 0) (some 10) none).member_contributions.map
        (fun r => r.percentage) = [333/10, 667/10]
      ∧ (get_group_analytics db6 1 (some 0) (some 10) none).member_contributions.map
          (fun r => r.total_contributed) = [1, 2]
      ∧ ((333 : ℚ)/10 ≠ 1 / (1 + 2) * 100) := by
  have h : (get_group_analytics db6 1 (some 0) (some 10) none).member_contributions
      = [⟨1, "Ann", "A", 1, 333/10⟩, ⟨2, "Bob", "B", 2, 667/10⟩] := by
    with_unfolding_all decide
  refine ⟨by rw [h]; rfl, by rw [h]; rfl, by norm_num⟩

/-- Claim C6 (amended): for every non-empty group-filtered set with
positive amounts, member_contributions has exactly one row per distinct
transacting user (its user ids are distinct, and a user id appears iff
that user has a filtered transaction), total_contributed equals the
unsigned sum of that user's income and expense amounts combined,
percentage equals that total divided by the sum of all filtered amounts
times 100 ROUNDED TO ONE DECIMAL PLACE, and the unrounded percentage
quotients sum to exactly 100 (in particular contributions of 800 and 200
yield exactly 80.0 and 20.0). -/
theorem member_contributions_amended (db : DB) (gid : Nat)
    (gs ge : Option Int) (cat : Option String)
    (hne : groupTxns db gid gs ge cat ≠ [])
    (hpos : ∀ t ∈ groupTxns db gid gs ge cat, 0 < t.amount) :
    ((get_group_analytics db gid gs ge cat).member_contributions.map
        (fun r => r.user_id)).Nodup
      ∧ (∀ u, u ∈ (get_group_analytics db gid gs ge cat).member_contributions.map
            (fun r => r.user_id)
          ↔ u ∈ (groupTxns db gid gs ge cat).map (fun t => t.user_id))
      ∧ (∀ r ∈ (get_group_analytics db gid gs ge cat).member_contributions,
          r.total_contributed = (((groupTxns db gid gs ge cat).filter
              (fun t => t.user_id == r.user_id)).map (fun t => t.amount)).sum)
      ∧ (∀ r ∈ (get_group_analytics db gid gs ge cat).member_contributions,
          r.percentage = round1 (r.total_contributed
            / ((groupTxns db gid gs ge cat).map (fun t => t.amount)).sum * 100))
      ∧ ((get_group_analytics db gid gs ge cat).member_contributions.map
          (fun r => r.total_contributed
            / ((groupTxns db gid gs ge cat).map (fun t => t.amount)).sum
            * 100)).sum = 100 := by
  have hallU : ∀ t ∈ groupTxns db gid gs ge cat,
      (lookupUser db t.user_id).isSome = true :=
    fun t ht => groupTxns_user_isSome ht
  have hmcEq := gga_member_contributions db gid gs ge cat hne
  have hvs : valsSum (userTotals db (groupTxns db gid gs ge cat))
      = ((groupTxns db gid gs ge cat).map (fun t => t.amount)).sum := by
    rw [userTotals, valsSum_groupTotals]
    exact valsSum_userRows db _ hallU
  have hmapne : (groupTxns db gid gs ge cat).map (fun t => t.amount) ≠ [] :=
    fun hc => hne (List.map_eq_nil_iff.1 hc)
  have hTpos : 0 < ((groupTxns db gid gs ge cat).map
      (fun t => t.amount)).sum := by
    apply List.sum_pos
    · intro x hx
      rcases List.mem_map.1 hx with ⟨y, hy, rfl⟩
      exact hpos y hy
    · exact hmapne
  have hkeyinfo : ∀ k ∈ keysOf (userTotals db (groupTxns db gid gs ge cat)),
      ∃ t ∈ groupTxns db gid gs ge cat, userKey db t = some k := by
    intro k hk
    rw [userTotals, mem_keys_groupTotals] at hk
    exact mem_keys_userRows hk
  have hmap : (get_group_analytics db gid gs ge cat).member_contributions.map
      (fun r => r.user_id)
      = (keysOf (userTotals db (groupTxns db gid gs ge cat))).map
          (fun k => k.1) := by
    rw [hmcEq, List.map_map, keysOf, List.map_map]
    rfl
  refine ⟨?_, ?_, ?_, ?_, ?_⟩
  · rw [hmap]
    apply List.Nodup.map_on
    · intro k hk k₂ hk₂ he
      obtain ⟨t, _, hkey⟩ := hkeyinfo k hk
      obtain ⟨t₂, _, hkey₂⟩ := hkeyinfo k₂ hk₂
      have h1 := (userKey_spec hkey).2
      have h2 := (userKey_spec hkey₂).2
      rw [he] at h1
      have h3 := Option.some.inj (h1.symm.trans h2)
      obtain ⟨a, b, c⟩ := k
      obtain ⟨a₂, b₂, c₂⟩ := k₂
      injection h3 with e1 e2 e3
      have he2 : a = a₂ := he
      have e2b : b = b₂ := e2
      have e3b : c = c₂ := e3
      subst he2
      subst e2b
      subst e3b
      rfl
    · rw [userTotals]
      exact nodup_keys_groupTotals _
  · intro u
    rw [hmap]
    constructor
    · intro hu
      rcases List.mem_map.1 hu with ⟨k, hk, rfl⟩
      obtain ⟨t, ht, hkey⟩ := hkeyinfo k hk
      rw [(userKey_spec hkey).1]
      exact List.mem_map_of_mem _ ht
    · intro hu
      rcases List.mem_map.1 hu with ⟨t, ht, rfl⟩
      obtain ⟨w, hw⟩ := Option.isSome_iff_exists.1 (hallU t ht)
      have hkey : userKey db t = some (w.id, w.first_name, w.last_name) := by
        rw [userKey, hw, Option.map_some']
      have hkmem : (w.id, w.first_name, w.last_name)
          ∈ keysOf (userTotals db (groupTxns db gid gs ge cat)) := by
        rw [userTotals, mem_keys_groupTotals]
        exact keys_userRows_of_mem ht hkey
      exact List.mem_map.2 ⟨_, hkmem, (userKey_spec hkey).1⟩
  · intro r hr
    rw [hmcEq] at hr
    rcases List.mem_map.1 hr with ⟨v, hv, rfl⟩
    obtain ⟨t, _, hkey⟩ := hkeyinfo v.1 (mem_keysOf_of_mem hv)
    have hlk := (userKey_spec hkey).2
    have hval : v.2 = assocSum ((groupTxns db gid gs ge cat).filterMap
        (fun t => (userKey db t).map (fun j => (j, t.amount)))) v.1 := by
      rw [userTotals] at hv
      exact groupTotals_val hv
    show v.2 = (((groupTxns db gid gs ge cat).filter
        (fun t => t.user_id == v.1.1)).map (fun t => t.amount)).sum
    rw [hval]
    exact assocSum_userRows hlk hallU
  · intro r hr
    rw [hmcEq] at hr
    rcases List.mem_map.1 hr with ⟨v, hv, rfl⟩
    show round1 (v.2 / orOne (valsSum (userTotals db
        (groupTxns db gid gs ge cat))) * 100)
      = round1 (v.2 / ((groupTxns db gid gs ge cat).map
          (fun t => t.amount)).sum * 100)
    rw [hvs, orOne_of_ne (ne_of_gt hTpos)]
  · rw [hmcEq, List.map_map]
    show ((userTotals db (groupTxns db gid gs ge cat)).map
        (fun v => v.2 / ((groupTxns db gid gs ge cat).map
          (fun t => t.amount)).sum * 100)).sum = 100
    rw [sum_map_div_mul, hvs, div_self (ne_of_gt hTpos), one_mul]

/-- Witness for C6 (amended): the 800/200 group `db6b`. -/
theorem member_contributions_amended_witness :
    groupTxns db6b 1 none none none ≠ []
      ∧ (∀ t ∈ groupTxns db6b 1 none none none, 0 < t.amount)
      ∧ ((get_group_analytics db6b 1 none none none).member_contributions.map
          (fun r => r.user_id)).Nodup := by
  have hne : groupTxns db6b 1 none none none ≠ [] := by decide
  have hpos : ∀ t ∈ groupTxns db6b 1 none none none, 0 < t.amount := by decide
  exact ⟨hne, hpos,
    (member_contributions_amended db6b 1 none none none hne hpos).1⟩

end SpendingTracker
